import Mathlib

/-!
Shallow embedding of the computational core of `healing.py`: the three signal
generators (`generate_binaural_beat`, `generate_isochronic`, `generate_choir`)
and the WAV encoder (`create_audio_file`), together with theorems settling the
specification claims about them.

Modelling conventions:
- numpy float64 arithmetic is idealised as exact arithmetic: `ℚ` where the
  claims need concrete evaluation (durations, the encoder), `ℝ` where the
  trigonometric signal formulas live;
- a numpy `(N, 2)` stereo array is a `List (ℝ × ℝ)` (or `List (ℚ × ℚ)` for the
  encoder input) of `(left, right)` frames;
- the byte stream written by `scipy.io.wavfile.write` is a `List ℕ` of byte
  values;
- the per-voice random draws of `generate_choir` (`np.random.rand()` once per
  voice) are passed in explicitly as a function `Fin 8 → ℝ` holding the eight
  detune factors, making the generator a deterministic function of the draws.
-/

namespace Healing

/-- Source constant `SAMPLE_RATE = 44100` (healing.py line 9). -/
def SAMPLE_RATE : ℕ := 44100

/-- Source constant `MAX_DURATION_MINUTES = 120` (healing.py line 10). -/
def MAX_DURATION_MINUTES : ℕ := 120

/-- Python `int(q)`: truncation toward zero, as applied by the source in
`int(SAMPLE_RATE * duration)` and by `np.int16` on float input. -/
def ratTrunc (q : ℚ) : ℤ :=
  if 0 ≤ q then ⌊q⌋ else ⌈q⌉

/-- Number of samples requested from `np.linspace`:
`int(SAMPLE_RATE * duration)` (healing.py lines 20, 27, 35). For the positive
durations the app uses, truncation toward zero is the floor. -/
def numSamples (duration : ℚ) : ℕ :=
  (ratTrunc ((SAMPLE_RATE : ℚ) * duration)).toNat

/-- The time grid `t = np.linspace(0, duration, numSamples duration)`.
`np.linspace` includes the right endpoint, so for `N ≥ 2` points
`t[n] = n * duration / (N - 1)`; for `N = 1` the single point is `0`
(the formula also yields `0` there, since division by zero is `0` in `ℚ`,
matching numpy's `[0.]`). -/
def tGrid (duration : ℚ) (n : ℕ) : ℚ :=
  (n : ℚ) * duration / ((numSamples duration : ℚ) - 1)

noncomputable section

open Real

/-- `generate_binaural_beat(base_freq, delta_freq, duration, amplitude=0.1)`
(healing.py lines 18-23): `left = amplitude*sin(2π*base_freq*t)`,
`right = amplitude*sin(2π*(base_freq+delta_freq)*t)`, stacked as frames. -/
def generate_binaural_beat (base_freq delta_freq : ℝ) (duration : ℚ)
    (amplitude : ℝ := 0.1) : List (ℝ × ℝ) :=
  (List.range (numSamples duration)).map (fun n =>
    (amplitude * Real.sin (2 * π * base_freq * (tGrid duration n : ℝ)),
     amplitude * Real.sin (2 * π * (base_freq + delta_freq) * (tGrid duration n : ℝ))))

open Classical in
/-- The gate `(np.sin(2*np.pi*beat_freq*t) > 0).astype(float)` of
`generate_isochronic` (healing.py line 29). -/
def isoGate (beat_freq : ℝ) (duration : ℚ) (n : ℕ) : ℝ :=
  if Real.sin (2 * π * beat_freq * (tGrid duration n : ℝ)) > 0 then 1 else 0

/-- `generate_isochronic(base_freq, beat_freq, duration, amplitude=0.3)`
(healing.py lines 25-31): `signal = amplitude * carrier * mod`, the same mono
signal in both channels. -/
def generate_isochronic (base_freq beat_freq : ℝ) (duration : ℚ)
    (amplitude : ℝ := 0.3) : List (ℝ × ℝ) :=
  (List.range (numSamples duration)).map (fun n =>
    (amplitude * Real.sin (2 * π * base_freq * (tGrid duration n : ℝ)) *
       isoGate beat_freq duration n,
     amplitude * Real.sin (2 * π * base_freq * (tGrid duration n : ℝ)) *
       isoGate beat_freq duration n))

/-- Voice frequency `freq = base_freq * (i + 1) * 0.5` (healing.py line 40). -/
def choirFreq (base_freq : ℝ) (i : Fin 8) : ℝ :=
  base_freq * ((i : ℕ) + 1) * 0.5

/-- Vibrato signal `vib = np.sin(2*np.pi*vib_rate*t) * vib_depth` with
`vib_depth = 0.5 + i*0.1` and `vib_rate = 5 + i*0.5` (healing.py lines 42-46). -/
def choirVib (i : Fin 8) (duration : ℚ) (n : ℕ) : ℝ :=
  Real.sin (2 * π * (5 + (i : ℕ) * 0.5) * (tGrid duration n : ℝ)) * (0.5 + (i : ℕ) * 0.1)

/-- Envelope `env = np.linspace(0.8, 0.2, len(t))` (healing.py line 47):
`env[n] = 0.8 + n * (0.2 - 0.8)/(N-1)`, written so that the `N = 1` case
gives `0.8`, matching numpy. -/
def choirEnv (duration : ℚ) (n : ℕ) : ℝ :=
  0.8 + (n : ℝ) * ((0.2 - 0.8) / ((numSamples duration : ℝ) - 1))

/-- One voice of `generate_choir` (healing.py lines 49-52), with the detune
factor `detune = 1 + (np.random.rand()*0.02 - 0.01)` passed in explicitly:
`amplitude * 0.5 * env * (sin(2π*(freq*detune+vib)*t)
 + 0.3*sin(2π*2*(freq*detune+vib)*t) + 0.1*sin(2π*3*(freq*detune+vib)*t))`. -/
def choirVoice (base_freq : ℝ) (detune : Fin 8 → ℝ) (duration : ℚ)
    (amplitude : ℝ) (i : Fin 8) (n : ℕ) : ℝ :=
  amplitude * 0.5 * choirEnv duration n *
    (Real.sin (2 * π * (choirFreq base_freq i * detune i + choirVib i duration n) *
        (tGrid duration n : ℝ)) +
     0.3 * Real.sin (2 * π * 2 * (choirFreq base_freq i * detune i + choirVib i duration n) *
        (tGrid duration n : ℝ)) +
     0.1 * Real.sin (2 * π * 3 * (choirFreq base_freq i * detune i + choirVib i duration n) *
        (tGrid duration n : ℝ)))

/-- `generate_choir(duration, base_freq=220.0, amplitude=0.2)`
(healing.py lines 33-58): sum the 8 voices and put `signal * 0.8` in both
channels. The eight per-call random detune draws are the argument `detune`. -/
def generate_choir (duration : ℚ) (detune : Fin 8 → ℝ) (base_freq : ℝ := 220)
    (amplitude : ℝ := 0.2) : List (ℝ × ℝ) :=
  (List.range (numSamples duration)).map (fun n =>
    ((∑ i : Fin 8, choirVoice base_freq detune duration amplitude i n) * 0.8,
     (∑ i : Fin 8, choirVoice base_freq detune duration amplitude i n) * 0.8))

end

/-- `np.max(np.abs(signal))` over all frames and both channels
(healing.py line 63), folded with initial value `0` (on a nonempty buffer this
agrees with numpy since every `|x| ≥ 0`; numpy raises on an empty buffer,
which the generators only produce for sub-sample durations). -/
def peakOf (sig : List (ℚ × ℚ)) : ℚ :=
  sig.foldr (fun p acc => max |p.1| (max |p.2| acc)) 0

/-- One scaled sample of `np.int16(signal / peak * 32767)` (healing.py
line 63): numpy's float-to-int16 cast truncates toward zero. The source
performs no `peak == 0` check; in this exact model division by zero yields `0`
(numpy instead produces NaN samples there, and still writes a file). -/
def scaleSample (peak q : ℚ) : ℤ :=
  ratTrunc (q / peak * 32767)

/-- The interleaved int16 samples of the stereo buffer, left then right per
frame, each scaled by `scaleSample` — the array `scaled` of healing.py
line 63 in `scipy.io.wavfile.write`'s interleaved order. -/
def scaleBuffer (peak : ℚ) : List (ℚ × ℚ) → List ℤ
  | [] => []
  | p :: rest => scaleSample peak p.1 :: scaleSample peak p.2 :: scaleBuffer peak rest

/-- Two little-endian bytes of an unsigned 16-bit value. -/
def u16le (x : ℕ) : List ℕ :=
  [x % 256, x / 256 % 256]

/-- Four little-endian bytes of an unsigned 32-bit value. -/
def u32le (x : ℕ) : List ℕ :=
  [x % 256, x / 256 % 256, x / 65536 % 256, x / 16777216 % 256]

/-- Two little-endian bytes of a signed 16-bit value, two's complement. -/
def i16le (x : ℤ) : List ℕ :=
  u16le (x % 65536).toNat

/-- The 44-byte header `scipy.io.wavfile.write` emits for 16-bit PCM stereo
data of `numFrames` frames at `SAMPLE_RATE`: `RIFF` size, `WAVE`, `fmt `
chunk (PCM, 2 channels, rate, byte rate `rate*4`, block align 4, 16 bits),
and the `data` chunk header. -/
def wavHeader (numFrames : ℕ) : List ℕ :=
  [82, 73, 70, 70] ++ u32le (36 + 4 * numFrames) ++ [87, 65, 86, 69] ++
  [102, 109, 116, 32] ++ u32le 16 ++ u16le 1 ++ u16le 2 ++
  u32le SAMPLE_RATE ++ u32le (SAMPLE_RATE * 4) ++ u16le 4 ++ u16le 16 ++
  [100, 97, 116, 97] ++ u32le (4 * numFrames)

/-- `create_audio_file(signal)` (healing.py lines 60-65): scale by the peak,
cast to int16, and serialize with `scipy.io.wavfile.write` into a WAV byte
stream: the 44-byte header followed by the interleaved little-endian int16
data. -/
def create_audio_file (sig : List (ℚ × ℚ)) : List ℕ :=
  wavHeader sig.length ++
    (scaleBuffer (peakOf sig) sig).foldr (fun s acc => i16le s ++ acc) []

/-- Mathematical rounding used by the SPEC's encoder description
(`round(sample / peak * 32767)`), for comparison with the code's truncation. -/
def specRound (q : ℚ) : ℤ :=
  round q

/-! ### Helper lemmas -/

theorem tGrid_zero (d : ℚ) : tGrid d 0 = 0 := by
  simp [tGrid]

theorem length_generate_binaural_beat (base Δ amp : ℝ) (d : ℚ) :
    (generate_binaural_beat base Δ d amp).length = numSamples d := by
  simp [generate_binaural_beat]

theorem length_generate_isochronic (base beat amp : ℝ) (d : ℚ) :
    (generate_isochronic base beat d amp).length = numSamples d := by
  simp [generate_isochronic]

theorem length_generate_choir (base amp : ℝ) (det : Fin 8 → ℝ) (d : ℚ) :
    (generate_choir d det base amp).length = numSamples d := by
  simp [generate_choir]

theorem numSamples_two : numSamples (2 / 44100) = 2 := by
  norm_num [numSamples, ratTrunc, SAMPLE_RATE]
  rfl

/-! ### Claim C1 -/

/-- Claim C1, as stated, is false on the code: `np.linspace(0, d, N)` includes
the endpoint. At `duration = 2/44100` the grid has `N = 2` points and
`t[1] = 2/44100 = duration` (the endpoint), whereas the claim predicts
`t[1] = 1/44100` and no endpoint. -/
theorem C1_counterexample :
    numSamples (2 / 44100) = 2 ∧
    tGrid (2 / 44100) 1 = 2 / 44100 ∧
    ¬ ((2 : ℚ) / 44100 = 1 / 44100) := by
  refine ⟨numSamples_two, ?_, by norm_num⟩
  rw [tGrid, numSamples_two]
  norm_num

/-- Claim C1 amended: the time grid of every generator is the inclusive
`linspace` grid `t[n] = n * d / (N - 1)` for `n = 0 .. N-1` with
`N = floor(SR * d)`: it starts at `0`, ends exactly at the endpoint `d`, and
has constant spacing `d / (N - 1)` (not `1 / SR`). -/
theorem C1_time_grid (d : ℚ) (h2 : 2 ≤ numSamples d) :
    tGrid d 0 = 0 ∧
    tGrid d (numSamples d - 1) = d ∧
    ∀ n : ℕ, tGrid d (n + 1) - tGrid d n = d / ((numSamples d : ℚ) - 1) := by
  have hcast : (2 : ℚ) ≤ (numSamples d : ℚ) := by exact_mod_cast h2
  have hN : ((numSamples d : ℚ) - 1) ≠ 0 := by linarith
  refine ⟨tGrid_zero d, ?_, ?_⟩
  · rw [tGrid, Nat.cast_sub (by omega : 1 ≤ numSamples d)]
    push_cast
    rw [mul_comm]
    field_simp
  · intro n
    rw [tGrid, tGrid, div_sub_div_same]
    congr 1
    push_cast
    ring

/-- Witness for `C1_time_grid` at the concrete duration `2/44100`. -/
theorem C1_time_grid_witness :
    2 ≤ numSamples (2 / 44100) ∧
    (tGrid (2 / 44100) 0 = 0 ∧
     tGrid (2 / 44100) (numSamples (2 / 44100) - 1) = 2 / 44100 ∧
     ∀ n : ℕ, tGrid (2 / 44100) (n + 1) - tGrid (2 / 44100) n =
       (2 / 44100) / ((numSamples (2 / 44100) : ℚ) - 1)) :=
  ⟨by rw [numSamples_two], C1_time_grid (2 / 44100) (by rw [numSamples_two])⟩

/-! ### Claim C2 -/

/-- Claim C2: on the generator's own time grid, the binaural channels are
`amplitude * sin(2π * base * t[n])` and `amplitude * sin(2π * (base + Δ) * t[n])`,
and both channels start at sine phase 0, so frame 0 is `(0, 0)`. -/
theorem C2_binaural_formula (base Δ amp : ℝ) (d : ℚ) (n : ℕ)
    (hn : n < numSamples d) :
    (generate_binaural_beat base Δ d amp)[n]? =
      some (amp * Real.sin (2 * Real.pi * base * (tGrid d n : ℝ)),
            amp * Real.sin (2 * Real.pi * (base + Δ) * (tGrid d n : ℝ))) ∧
    (generate_binaural_beat base Δ d amp)[0]? = some (0, 0) := by
  have h0 : 0 < numSamples d := Nat.lt_of_le_of_lt (Nat.zero_le n) hn
  constructor
  · simp [generate_binaural_beat, List.getElem?_map, List.getElem?_range, hn]
  · simp [generate_binaural_beat, List.getElem?_map, List.getElem?_range, h0, tGrid_zero]

/-- Witness for `C2_binaural_formula` at base 200 Hz, delta 7 Hz,
duration `2/44100`, amplitude 0.1, frame 1. -/
theorem C2_binaural_witness :
    1 < numSamples (2 / 44100) ∧
    ((generate_binaural_beat 200 7 (2 / 44100) 0.1)[1]? =
       some (0.1 * Real.sin (2 * Real.pi * 200 * (tGrid (2 / 44100) 1 : ℝ)),
             0.1 * Real.sin (2 * Real.pi * (200 + 7) * (tGrid (2 / 44100) 1 : ℝ))) ∧
     (generate_binaural_beat 200 7 (2 / 44100) 0.1)[0]? = some (0, 0)) :=
  ⟨by rw [numSamples_two]; norm_num,
   C2_binaural_formula 200 7 0.1 (2 / 44100) 1 (by rw [numSamples_two]; norm_num)⟩

/-! ### Claim C5 -/

/-- Claim C5 is right about the intended behavior but the code has no
`InvalidDuration` check: for any duration below one sample period every
generator silently returns the empty buffer (and the encoder then crashes
downstream on `np.max` of an empty array). This theorem evaluates the code's
actual behavior at such durations. -/
theorem C5_subsample_returns_empty (d : ℚ) (h0 : 0 < d)
    (h1 : d < 1 / SAMPLE_RATE) (base Δ beat amp : ℝ) (det : Fin 8 → ℝ) :
    generate_binaural_beat base Δ d amp = [] ∧
    generate_isochronic base beat d amp = [] ∧
    generate_choir d det base amp = [] := by
  have h44 : ((SAMPLE_RATE : ℕ) : ℚ) = 44100 := by norm_num [SAMPLE_RATE]
  rw [h44] at h1
  have hN : numSamples d = 0 := by
    unfold numSamples ratTrunc
    rw [h44, if_pos (by nlinarith : (0 : ℚ) ≤ 44100 * d)]
    have hfl : ⌊(44100 : ℚ) * d⌋ = 0 := by
      rw [Int.floor_eq_zero_iff]
      constructor
      · nlinarith
      · nlinarith
    simp [hfl]
  exact ⟨by simp [generate_binaural_beat, hN],
         by simp [generate_isochronic, hN],
         by simp [generate_choir, hN]⟩

/-- Witness for `C5_subsample_returns_empty` at duration `1/88200`. -/
theorem C5_subsample_witness :
    (0 < (1 : ℚ) / 88200 ∧ (1 : ℚ) / 88200 < 1 / SAMPLE_RATE) ∧
    (generate_binaural_beat 200 7 (1 / 88200) 0.1 = [] ∧
     generate_isochronic 200 10 (1 / 88200) 0.1 = [] ∧
     generate_choir (1 / 88200) (fun _ => 1) 200 0.1 = []) :=
  ⟨⟨by norm_num, by norm_num [SAMPLE_RATE]⟩,
   C5_subsample_returns_empty (1 / 88200) (by norm_num)
     (by norm_num [SAMPLE_RATE]) 200 7 10 0.1 (fun _ => 1)⟩

/-! ### Claim C6 -/

/-- Claim C6: the isochronic gate takes only the exact values 0 and 1, equals
1 exactly when `sin(2π * beat * t[n]) > 0`, the output frame is
`amplitude * carrier * gate` in both (identical) channels, and the output is
zero wherever the gate is zero. -/
theorem C6_isochronic_gate (base beat amp : ℝ) (d : ℚ) (n : ℕ)
    (hn : n < numSamples d) :
    (isoGate beat d n = 0 ∨ isoGate beat d n = 1) ∧
    (isoGate beat d n = 1 ↔ Real.sin (2 * Real.pi * beat * (tGrid d n : ℝ)) > 0) ∧
    (generate_isochronic base beat d amp)[n]? =
      some (amp * Real.sin (2 * Real.pi * base * (tGrid d n : ℝ)) * isoGate beat d n,
            amp * Real.sin (2 * Real.pi * base * (tGrid d n : ℝ)) * isoGate beat d n) ∧
    (isoGate beat d n = 0 →
      (generate_isochronic base beat d amp)[n]? = some (0, 0)) := by
  refine ⟨?_, ?_, ?_, ?_⟩
  · rw [isoGate]
    split_ifs <;> simp
  · rw [isoGate]
    split_ifs with h <;> simp [h]
  · simp [generate_isochronic, List.getElem?_map, List.getElem?_range, hn]
  · intro hg
    simp [generate_isochronic, List.getElem?_map, List.getElem?_range, hn, hg]

/-- Witness for `C6_isochronic_gate` at base 432 Hz, beat 10 Hz,
duration `2/44100`, amplitude 0.3, frame 1. -/
theorem C6_isochronic_witness :
    1 < numSamples (2 / 44100) ∧
    ((isoGate 10 (2 / 44100) 1 = 0 ∨ isoGate 10 (2 / 44100) 1 = 1) ∧
     (isoGate 10 (2 / 44100) 1 = 1 ↔
        Real.sin (2 * Real.pi * 10 * (tGrid (2 / 44100) 1 : ℝ)) > 0) ∧
     (generate_isochronic 432 10 (2 / 44100) 0.3)[1]? =
       some (0.3 * Real.sin (2 * Real.pi * 432 * (tGrid (2 / 44100) 1 : ℝ)) *
               isoGate 10 (2 / 44100) 1,
             0.3 * Real.sin (2 * Real.pi * 432 * (tGrid (2 / 44100) 1 : ℝ)) *
               isoGate 10 (2 / 44100) 1) ∧
     (isoGate 10 (2 / 44100) 1 = 0 →
       (generate_isochronic 432 10 (2 / 44100) 0.3)[1]? = some (0, 0))) :=
  ⟨by rw [numSamples_two]; norm_num,
   C6_isochronic_gate 432 10 0.3 (2 / 44100) 1 (by rw [numSamples_two]; norm_num)⟩

/-! ### Claim C7 -/

/-- Claim C7, as stated, is false on the code: the per-channel length is
`int(SR * d)` which truncates, not rounds. At `duration = 19/441000` we have
`SR * d = 1.9`: the buffer has 1 frame, while `round(SR * d) = 2`. -/
theorem C7_counterexample :
    (generate_binaural_beat 200 7 (19 / 441000) 0.1).length = 1 ∧
    specRound ((44100 : ℚ) * (19 / 441000)) = 2 ∧
    (1 : ℕ) ≠ 2 := by
  refine ⟨?_, ?_, by norm_num⟩
  · rw [length_generate_binaural_beat]
    norm_num [numSamples, ratTrunc, SAMPLE_RATE]
  · norm_num [specRound, round_eq]

/-- Claim C7 amended: every generator produces a buffer of per-channel length
`floor(SR * d)` (Python `int` truncation), not `round(SR * d)`; at the
configured maximum duration (120 minutes) this is exactly
`SAMPLE_RATE * MAX_DURATION_MINUTES * 60` samples per channel. -/
theorem C7_buffer_length (base Δ beat amp : ℝ) (det : Fin 8 → ℝ) (d : ℚ) :
    (generate_binaural_beat base Δ d amp).length = numSamples d ∧
    (generate_isochronic base beat d amp).length = numSamples d ∧
    (generate_choir d det base amp).length = numSamples d ∧
    (generate_binaural_beat base Δ ((MAX_DURATION_MINUTES : ℚ) * 60) amp).length =
      SAMPLE_RATE * MAX_DURATION_MINUTES * 60 := by
  refine ⟨length_generate_binaural_beat _ _ _ _, length_generate_isochronic _ _ _ _,
    length_generate_choir _ _ _ _, ?_⟩
  rw [length_generate_binaural_beat]
  norm_num [numSamples, ratTrunc, SAMPLE_RATE, MAX_DURATION_MINUTES]
  rfl

/-! ### Encoder helper lemmas -/

theorem peakOf_nonneg (sig : List (ℚ × ℚ)) : 0 ≤ peakOf sig := by
  induction sig with
  | nil => simp [peakOf]
  | cons p rest ih =>
    simp only [peakOf, List.foldr_cons] at ih ⊢
    exact le_trans ih (le_trans (le_max_right _ _) (le_max_right _ _))

theorem abs_le_peakOf (sig : List (ℚ × ℚ)) (l r : ℚ) (h : (l, r) ∈ sig) :
    |l| ≤ peakOf sig ∧ |r| ≤ peakOf sig := by
  induction sig with
  | nil => simp at h
  | cons p rest ih =>
    simp only [peakOf, List.foldr_cons] at ih ⊢
    rcases List.mem_cons.mp h with heq | hmem
    · rw [← heq]
      exact ⟨le_max_left _ _,
             le_trans (le_max_left _ _) (le_max_right _ _)⟩
    · obtain ⟨hl, hr⟩ := ih hmem
      exact ⟨le_trans hl (le_trans (le_max_right _ _) (le_max_right _ _)),
             le_trans hr (le_trans (le_max_right _ _) (le_max_right _ _))⟩

theorem ratTrunc_bound (q : ℚ) (B : ℤ) (hB : 0 ≤ B) (h : |q| ≤ (B : ℚ)) :
    -B ≤ ratTrunc q ∧ ratTrunc q ≤ B := by
  rw [abs_le] at h
  rw [ratTrunc]
  split_ifs with hq
  · constructor
    · exact le_trans (by omega) (Int.floor_nonneg.mpr hq)
    · calc ⌊q⌋ ≤ ⌊(B : ℚ)⌋ := Int.floor_le_floor h.2
        _ = B := Int.floor_intCast B
  · push_neg at hq
    constructor
    · calc -B = ⌈((-B : ℤ) : ℚ)⌉ := by rw [Int.ceil_intCast]
        _ ≤ ⌈q⌉ := Int.ceil_le_ceil (by push_cast; linarith [h.1])
    · calc ⌈q⌉ ≤ ⌈(0 : ℚ)⌉ := Int.ceil_le_ceil hq.le
        _ = 0 := by norm_num
        _ ≤ B := hB

theorem peakOf_half_one : peakOf [((1 : ℚ) / 2, 1)] = 1 := by
  norm_num [peakOf]
  rw [abs_of_nonneg (by norm_num : (0 : ℚ) ≤ 1 / 2)]
  norm_num

theorem length_scaleBuffer (p : ℚ) (sig : List (ℚ × ℚ)) :
    (scaleBuffer p sig).length = 2 * sig.length := by
  induction sig with
  | nil => simp [scaleBuffer]
  | cons q rest ih => simp [scaleBuffer, ih]; ring

theorem length_i16le (x : ℤ) : (i16le x).length = 2 := by
  simp [i16le, u16le]

theorem length_dataBytes (l : List ℤ) :
    (l.foldr (fun s acc => i16le s ++ acc) []).length = 2 * l.length := by
  induction l with
  | nil => simp
  | cons x rest ih => simp [ih, length_i16le]; ring

theorem length_wavHeader (n : ℕ) : (wavHeader n).length = 44 := by
  simp [wavHeader, u16le, u32le]

theorem length_create_audio_file (sig : List (ℚ × ℚ)) :
    (create_audio_file sig).length = 44 + 4 * sig.length := by
  rw [create_audio_file, List.length_append, length_wavHeader, length_dataBytes,
    length_scaleBuffer]
  ring

theorem peakOf_smul (sig : List (ℚ × ℚ)) (c : ℚ) (hc : 0 ≤ c) :
    peakOf (sig.map fun q => (c * q.1, c * q.2)) = c * peakOf sig := by
  induction sig with
  | nil => simp [peakOf]
  | cons p rest ih =>
    simp only [peakOf, List.foldr_cons, List.map_cons] at ih ⊢
    rw [ih, abs_mul, abs_mul, abs_of_nonneg hc,
      mul_max_of_nonneg _ _ hc, mul_max_of_nonneg _ _ hc]

theorem scaleSample_smul (c : ℚ) (hc : c ≠ 0) (p x : ℚ) :
    scaleSample (c * p) (c * x) = scaleSample p x := by
  rw [scaleSample, scaleSample, mul_div_mul_left x p hc]

theorem scaleBuffer_smul (c : ℚ) (hc : c ≠ 0) (p : ℚ) (sig : List (ℚ × ℚ)) :
    scaleBuffer (c * p) (sig.map fun q => (c * q.1, c * q.2)) = scaleBuffer p sig := by
  induction sig with
  | nil => simp [scaleBuffer]
  | cons q rest ih =>
    simp only [List.map_cons, scaleBuffer, scaleSample_smul c hc, ih]

/-! ### Claim C3 -/

/-- Claim C3, as stated, is false on the code: `np.int16` truncates toward
zero, it does not round. On the buffer `[(1/2, 1)]` the peak is 1, the claim
predicts `round(16383.5) = 16384` for the left sample, but the code emits
`16383`. -/
theorem C3_counterexample :
    scaleBuffer (peakOf [((1 : ℚ) / 2, 1)]) [((1 : ℚ) / 2, 1)] = [16383, 32767] ∧
    specRound ((1 : ℚ) / 2 / peakOf [((1 : ℚ) / 2, 1)] * 32767) = 16384 ∧
    ((16383 : ℤ) ≠ 16384) := by
  have h1 : ratTrunc ((1 : ℚ) / 2 / 1 * 32767) = 16383 := by
    rw [ratTrunc, if_pos (by norm_num)]
    norm_num
  have h2 : ratTrunc ((1 : ℚ) / 1 * 32767) = 32767 := by
    rw [ratTrunc, if_pos (by norm_num)]
    norm_num
  refine ⟨?_, ?_, by norm_num⟩
  · rw [peakOf_half_one]
    simp only [scaleBuffer, scaleSample]
    rw [h1, h2]
  · rw [peakOf_half_one]
    norm_num [specRound, round_eq]

/-- Claim C3 amended: for a buffer with nonzero peak, each emitted 16-bit
sample is `sample / peak * 32767` truncated toward zero (numpy's float-to-int
cast), not rounded; no clamping is applied, and none is needed, since the
scaled value always lies within `[-32767, 32767]`. -/
theorem C3_scaled_sample (sig : List (ℚ × ℚ)) (l r : ℚ) (hmem : (l, r) ∈ sig)
    (hp : peakOf sig ≠ 0) :
    scaleSample (peakOf sig) l = ratTrunc (l / peakOf sig * 32767) ∧
    (-32767 ≤ scaleSample (peakOf sig) l ∧ scaleSample (peakOf sig) l ≤ 32767) ∧
    (-32767 ≤ scaleSample (peakOf sig) r ∧ scaleSample (peakOf sig) r ≤ 32767) := by
  have hpos : 0 < peakOf sig := lt_of_le_of_ne (peakOf_nonneg sig) (Ne.symm hp)
  obtain ⟨hl, hr⟩ := abs_le_peakOf sig l r hmem
  have key : ∀ x : ℚ, |x| ≤ peakOf sig →
      -32767 ≤ scaleSample (peakOf sig) x ∧ scaleSample (peakOf sig) x ≤ 32767 := by
    intro x hx
    have hdiv : |x / peakOf sig| ≤ 1 := by
      rw [abs_div, abs_of_pos hpos]
      exact (div_le_one hpos).mpr hx
    have habs : |x / peakOf sig * 32767| ≤ ((32767 : ℤ) : ℚ) := by
      rw [abs_mul]
      calc |x / peakOf sig| * |(32767 : ℚ)|
          ≤ 1 * |(32767 : ℚ)| := by
            exact mul_le_mul_of_nonneg_right hdiv (abs_nonneg _)
        _ = ((32767 : ℤ) : ℚ) := by norm_num
    exact ratTrunc_bound _ 32767 (by norm_num) habs
  exact ⟨rfl, key l hl, key r hr⟩

/-- Witness for `C3_scaled_sample` on the buffer `[(1/2, 1)]`. -/
theorem C3_scaled_sample_witness :
    (((1 : ℚ) / 2, (1 : ℚ)) ∈ [((1 : ℚ) / 2, 1)] ∧
     peakOf [((1 : ℚ) / 2, 1)] ≠ 0) ∧
    (scaleSample (peakOf [((1 : ℚ) / 2, 1)]) ((1 : ℚ) / 2) =
       ratTrunc ((1 : ℚ) / 2 / peakOf [((1 : ℚ) / 2, 1)] * 32767) ∧
     (-32767 ≤ scaleSample (peakOf [((1 : ℚ) / 2, 1)]) ((1 : ℚ) / 2) ∧
      scaleSample (peakOf [((1 : ℚ) / 2, 1)]) ((1 : ℚ) / 2) ≤ 32767) ∧
     (-32767 ≤ scaleSample (peakOf [((1 : ℚ) / 2, 1)]) 1 ∧
      scaleSample (peakOf [((1 : ℚ) / 2, 1)]) 1 ≤ 32767)) :=
  ⟨⟨by simp, by rw [peakOf_half_one]; norm_num⟩,
   C3_scaled_sample [((1 : ℚ) / 2, 1)] ((1 : ℚ) / 2) 1 (by simp)
     (by rw [peakOf_half_one]; norm_num)⟩

/-! ### Claim C4 -/

/-- Claim C4 is right about the intended behavior, but the code has no
`peak == 0` check: `create_audio_file` divides by zero on an all-zero buffer
(numpy produces NaN samples and a warning, not an error) and still writes a
complete WAV file. This theorem evaluates the model at all-zero buffers:
a full byte stream of 44 header bytes plus 4 bytes per frame is emitted,
starting with the RIFF magic — exactly the "header with silent data chunk"
the claim says is never emitted. -/
theorem C4_silent_still_encoded (k : ℕ) :
    (create_audio_file (List.replicate k ((0 : ℚ), (0 : ℚ)))).length = 44 + 4 * k ∧
    (create_audio_file (List.replicate k ((0 : ℚ), (0 : ℚ)))).take 4 =
      [82, 73, 70, 70] := by
  constructor
  · rw [length_create_audio_file, List.length_replicate]
  · rw [create_audio_file, List.take_append_of_le_length
      (by rw [length_wavHeader]; norm_num)]
    simp [wavHeader, u32le, u16le]

/-! ### Claim C8 -/

/-- Claim C8: peak normalization makes the encoder invariant under uniform
positive scaling of a non-silent input buffer — the emitted WAV byte stream
is identical. -/
theorem C8_scale_invariant (sig : List (ℚ × ℚ)) (c : ℚ) (hc : 0 < c)
    (hp : peakOf sig ≠ 0) :
    create_audio_file (sig.map fun q => (c * q.1, c * q.2)) =
      create_audio_file sig := by
  have _ := hp
  rw [create_audio_file, create_audio_file, List.length_map,
    peakOf_smul sig c hc.le, scaleBuffer_smul c hc.ne' (peakOf sig) sig]

/-- Witness for `C8_scale_invariant`: scaling the buffer `[(1/2, 1)]` by 3. -/
theorem C8_scale_invariant_witness :
    ((0 : ℚ) < 3 ∧ peakOf [((1 : ℚ) / 2, 1)] ≠ 0) ∧
    create_audio_file ([((1 : ℚ) / 2, 1)].map fun q => (3 * q.1, 3 * q.2)) =
      create_audio_file [((1 : ℚ) / 2, 1)] :=
  ⟨⟨by norm_num, by rw [peakOf_half_one]; norm_num⟩,
   C8_scale_invariant [((1 : ℚ) / 2, 1)] 3 (by norm_num)
     (by rw [peakOf_half_one]; norm_num)⟩

/-! ### Claim C9 -/

/-- Regrouping of the sine arguments of one choir voice: the code's
`2π * k * (freq*detune + vib) * t` equals the spec's `2π * (k * φ)` with
`φ = (freq*detune + vib) * t`. -/
theorem choirVoice_phi (base amp : ℝ) (det : Fin 8 → ℝ) (d : ℚ) (i : Fin 8) (n : ℕ) :
    choirVoice base det d amp i n =
      amp * 0.5 * choirEnv d n *
        (Real.sin (2 * Real.pi *
            ((choirFreq base i * det i + choirVib i d n) * (tGrid d n : ℝ))) +
         0.3 * Real.sin (2 * Real.pi *
            (2 * ((choirFreq base i * det i + choirVib i d n) * (tGrid d n : ℝ)))) +
         0.1 * Real.sin (2 * Real.pi *
            (3 * ((choirFreq base i * det i + choirVib i d n) * (tGrid d n : ℝ))))) := by
  rw [choirVoice]
  ring_nf

/-- Claim C9: each choir output frame carries, in both (identical) channels,
`0.8` times the sum over the 8 voices of
`amplitude * 0.5 * env[n] * (sin(2π φ_i[n]) + 0.3 sin(2π·2φ_i[n]) + 0.1 sin(2π·3φ_i[n]))`
with `φ_i[n] = (freq_i * detune_i + vib_i[n]) * t[n]`; and the shared envelope
is a linear ramp from 0.8 (first sample) to 0.2 (last sample). -/
theorem C9_choir_formula (base amp : ℝ) (det : Fin 8 → ℝ) (d : ℚ) (n : ℕ)
    (hn : n < numSamples d) :
    (generate_choir d det base amp)[n]? =
      some (0.8 * ∑ i : Fin 8, amp * 0.5 * choirEnv d n *
              (Real.sin (2 * Real.pi *
                  ((choirFreq base i * det i + choirVib i d n) * (tGrid d n : ℝ))) +
               0.3 * Real.sin (2 * Real.pi *
                  (2 * ((choirFreq base i * det i + choirVib i d n) * (tGrid d n : ℝ)))) +
               0.1 * Real.sin (2 * Real.pi *
                  (3 * ((choirFreq base i * det i + choirVib i d n) * (tGrid d n : ℝ))))),
            0.8 * ∑ i : Fin 8, amp * 0.5 * choirEnv d n *
              (Real.sin (2 * Real.pi *
                  ((choirFreq base i * det i + choirVib i d n) * (tGrid d n : ℝ))) +
               0.3 * Real.sin (2 * Real.pi *
                  (2 * ((choirFreq base i * det i + choirVib i d n) * (tGrid d n : ℝ)))) +
               0.1 * Real.sin (2 * Real.pi *
                  (3 * ((choirFreq base i * det i + choirVib i d n) * (tGrid d n : ℝ)))))) ∧
    (2 ≤ numSamples d →
      choirEnv d 0 = 0.8 ∧ choirEnv d (numSamples d - 1) = 0.2) := by
  constructor
  · have hsum : (∑ i : Fin 8, choirVoice base det d amp i n) =
        ∑ i : Fin 8, amp * 0.5 * choirEnv d n *
          (Real.sin (2 * Real.pi *
              ((choirFreq base i * det i + choirVib i d n) * (tGrid d n : ℝ))) +
           0.3 * Real.sin (2 * Real.pi *
              (2 * ((choirFreq base i * det i + choirVib i d n) * (tGrid d n : ℝ)))) +
           0.1 * Real.sin (2 * Real.pi *
              (3 * ((choirFreq base i * det i + choirVib i d n) * (tGrid d n : ℝ))))) :=
      Finset.sum_congr rfl (fun i _ => choirVoice_phi base amp det d i n)
    simp [generate_choir, List.getElem?_map, List.getElem?_range, hn, hsum, mul_comm]
  · intro h2
    have hcast : (2 : ℝ) ≤ (numSamples d : ℝ) := by exact_mod_cast h2
    have hNne : ((numSamples d : ℝ) - 1) ≠ 0 := by linarith
    constructor
    · simp [choirEnv]
    · rw [choirEnv, Nat.cast_sub (by omega : 1 ≤ numSamples d)]
      push_cast
      field_simp

/-- Witness for `C9_choir_formula` at duration `2/44100`, all detune factors 1,
base 220 Hz, amplitude 0.2, frame 1. -/
theorem C9_choir_witness :
    1 < numSamples (2 / 44100) ∧
    ((generate_choir (2 / 44100) (fun _ => 1) 220 0.2)[1]? =
       some (0.8 * ∑ i : Fin 8, 0.2 * 0.5 * choirEnv (2 / 44100) 1 *
               (Real.sin (2 * Real.pi *
                   ((choirFreq 220 i * (fun _ => (1:ℝ)) i + choirVib i (2 / 44100) 1) *
                     (tGrid (2 / 44100) 1 : ℝ))) +
                0.3 * Real.sin (2 * Real.pi *
                   (2 * ((choirFreq 220 i * (fun _ => (1:ℝ)) i + choirVib i (2 / 44100) 1) *
                     (tGrid (2 / 44100) 1 : ℝ)))) +
                0.1 * Real.sin (2 * Real.pi *
                   (3 * ((choirFreq 220 i * (fun _ => (1:ℝ)) i + choirVib i (2 / 44100) 1) *
                     (tGrid (2 / 44100) 1 : ℝ))))),
             0.8 * ∑ i : Fin 8, 0.2 * 0.5 * choirEnv (2 / 44100) 1 *
               (Real.sin (2 * Real.pi *
                   ((choirFreq 220 i * (fun _ => (1:ℝ)) i + choirVib i (2 / 44100) 1) *
                     (tGrid (2 / 44100) 1 : ℝ))) +
                0.3 * Real.sin (2 * Real.pi *
                   (2 * ((choirFreq 220 i * (fun _ => (1:ℝ)) i + choirVib i (2 / 44100) 1) *
                     (tGrid (2 / 44100) 1 : ℝ)))) +
                0.1 * Real.sin (2 * Real.pi *
                   (3 * ((choirFreq 220 i * (fun _ => (1:ℝ)) i + choirVib i (2 / 44100) 1) *
                     (tGrid (2 / 44100) 1 : ℝ)))))) ∧
     (2 ≤ numSamples (2 / 44100) →
       choirEnv (2 / 44100) 0 = 0.8 ∧
       choirEnv (2 / 44100) (numSamples (2 / 44100) - 1) = 0.2)) :=
  ⟨by rw [numSamples_two]; norm_num,
   C9_choir_formula 220 0.2 (fun _ => 1) (2 / 44100) 1 (by rw [numSamples_two]; norm_num)⟩

/-! ### Claim C10 -/

/-- Claim C10: when the amplitude argument is omitted — as the app's dispatch
code always does — each generator uses its own default amplitude: 0.1 for
binaural, 0.3 for isochronic, 0.2 for choir, three pairwise different nominal
levels. -/
theorem C10_default_amplitudes :
    (∀ (base Δ : ℝ) (d : ℚ),
       generate_binaural_beat base Δ d = generate_binaural_beat base Δ d 0.1) ∧
    (∀ (base beat : ℝ) (d : ℚ),
       generate_isochronic base beat d = generate_isochronic base beat d 0.3) ∧
    (∀ (d : ℚ) (det : Fin 8 → ℝ) (base : ℝ),
       generate_choir d det base = generate_choir d det base 0.2) ∧
    (0.1 : ℝ) ≠ 0.3 ∧ (0.3 : ℝ) ≠ 0.2 ∧ (0.1 : ℝ) ≠ 0.2 :=
  ⟨fun _ _ _ => rfl, fun _ _ _ => rfl, fun _ _ _ => rfl,
   by norm_num, by norm_num, by norm_num⟩

end Healing
